import Mathlib

/-!
Verification development for the QAsmith IR-to-Playwright compiler
(`backend/compiler/compiler.py`, `backend/compiler/templates.py`,
`backend/compiler/api_compiler.py`, `backend/compiler/api_templates.py`).

The Python compiler is shallowly embedded: every method becomes a total
Lean function over explicit data, strings are Lean `String`s, Python
`None`/missing optional fields are `Option`, and Python string
truthiness (`None` and `""` are falsy) is modelled by `truthy`.
Braces and single quotes occurring inside generated JavaScript text are
written with `\x7b`, `\x7d` and `\x27` escapes; the denoted strings are
the exact texts produced by the Python templates.
-/

/-- Python `s.startswith(p)` on code points. -/
def strStartsWith (s p : String) : Bool := p.data.isPrefixOf s.data

/-- Python truthiness of an optional string: `None` and `""` are falsy. -/
def truthy : Option String → Bool
  | none => false
  | some s => s ≠ ""

/-- Python `a or b` for an optional string `a` and a string fallback `b`. -/
def truthyOr (a : Option String) (b : String) : String :=
  match a with
  | none => b
  | some s => if s = "" then b else s

/-- The string stored in an optional field (used only under a `truthy` guard,
where it agrees with the Python attribute access). -/
def optStr (a : Option String) : String := a.getD ""

/-- ASCII lowering, modelling Python `str.lower()` on the ASCII selectors the
compiler compares against the `"title"` sentinel. -/
def asciiLower (s : String) : String := String.mk (s.data.map Char.toLower)

/-- `str.replace("'", "\\'")` from `compiler.py`, char by char on the code
points: every single-quote character is replaced by backslash + quote. -/
def escapeQuotesL : List Char → List Char
  | [] => []
  | c :: cs => if c = '\'' then '\\' :: '\'' :: escapeQuotesL cs
               else c :: escapeQuotesL cs

/-- String form of `escapeQuotesL`. -/
def escapeQuotes (s : String) : String := String.mk (escapeQuotesL s.data)

/-- Auxiliary scan: `true` iff every quote character in the list is
immediately preceded by a backslash (`prev` is the previous char, if any). -/
def qeAux : Option Char → List Char → Bool
  | _, [] => true
  | prev, c :: rest =>
      if c = '\'' ∧ prev ≠ some '\\' then false else qeAux (some c) rest

/-- Every single quote in `s` is immediately preceded by a backslash. -/
def quotesEscaped (s : String) : Bool := qeAux none s.data

/-- Python `"sep".join(parts)`. -/
def joinSep (sep : String) : List String → String
  | [] => ""
  | [s] => s
  | s :: rest => s ++ sep ++ joinSep sep rest

/-- Python `enumerate(xs, n)`. -/
def enumFrom (n : Nat) : List α → List (Nat × α)
  | [] => []
  | a :: as => (n, a) :: enumFrom (n + 1) as

/-- A fragment whose first non-space characters are `//`: the shape of every
diagnostic comment the compiler emits. -/
def isCommentFragment (s : String) : Bool :=
  strStartsWith (String.mk (s.data.dropWhile (· = ' '))) "//"

/-- The `SelectorStrategy` enum of `backend/shared/types.py`. -/
inductive SelectorStrategy where
  | testId
  | ariaLabel
  | text
  | css
  | xpath
deriving DecidableEq, Repr

/-- Quote characters accepted by the `['\"]` character classes of the
`a:text(...)` normalization pattern in `_normalize_selector`. -/
def isQuoteCh (c : Char) : Bool := c = '\'' ∨ c = '"'

/-- Lazy scan of `(.+?)['\"]\)` after the opening quote of the
`a:text(...)` pattern: the match closes at the earliest position where a
quote followed by `)` ends a non-empty content (content chars cannot be
newlines, which `.` does not match). -/
def aTextScan (acc : List Char) : List Char → Option (List Char)
  | [] => none
  | c :: rest =>
      if isQuoteCh c ∧ rest.head? = some ')' ∧ acc ≠ [] then some acc.reverse
      else if c = '\n' then none
      else aTextScan (c :: acc) rest

/-- `re.match(r"a:text\(['\"](.+?)['\"]\)", selector)`, returning the first
group on success. `re.match` anchors only at the start, so trailing text
after the closing `)` is allowed and discarded. -/
def aTextMatch (l : List Char) : Option (List Char) :=
  if "a:text(".data.isPrefixOf l then
    match l.drop 7 with
    | q :: rest => if isQuoteCh q then aTextScan [] rest else none
    | [] => none
  else none

/-- `TestCompiler._normalize_selector`: rewrite `a:text('...')` to its inner
text, strip a `text=` prefix, otherwise return the selector unchanged. -/
def normalizeSelector (selector : String) : String :=
  match aTextMatch selector.data with
  | some content => String.mk content
  | none =>
      if strStartsWith selector "text=" then String.mk (selector.data.drop 5)
      else selector

/-- One char of the `^[a-zA-Z\s]+$` class (ASCII letters and whitespace;
the Unicode extras of Python `\s` are irrelevant to the compiler's ASCII
selector conventions). -/
def isAlphaSpaceCh (c : Char) : Bool :=
  c.isAlpha ∨ c = ' ' ∨ c = '\t' ∨ c = '\n' ∨ c = '\r' ∨ c = '\x0b' ∨ c = '\x0c'

/-- `re.match(r'^[a-zA-Z\s]+$', s)` viewed as a Bool: non-empty and all
chars in the class. -/
def matchesAlphaSpace (s : String) : Bool :=
  s.data ≠ [] ∧ s.data.all isAlphaSpaceCh

/-- `TestCompiler._infer_selector_strategy`. -/
def inferSelectorStrategy (s : String) : SelectorStrategy :=
  if strStartsWith s "[data-testid" then SelectorStrategy.testId
  else if strStartsWith s "[aria-label" then SelectorStrategy.ariaLabel
  else if strStartsWith s "//" then SelectorStrategy.xpath
  else if matchesAlphaSpace s ∧ ¬ strStartsWith s "." ∧ ¬ strStartsWith s "#" then
    SelectorStrategy.text
  else SelectorStrategy.css

/-- `SELECTOR_TEMPLATES` of `templates.py`: one locator template per
strategy. -/
def selectorTemplate : SelectorStrategy → String → String
  | SelectorStrategy.testId, s => "page.getByTestId(\x27" ++ s ++ "\x27)"
  | SelectorStrategy.ariaLabel, s => "page.getByLabel(\x27" ++ s ++ "\x27)"
  | SelectorStrategy.text, s => "page.getByText(\x27" ++ s ++ "\x27)"
  | SelectorStrategy.css, s => "page.locator(\x27" ++ s ++ "\x27)"
  | SelectorStrategy.xpath, s => "page.locator(\x27" ++ s ++ "\x27)"

/-- `TestCompiler._generate_selector`: normalize, infer the strategy when
absent, apply the strategy's template, and append `.first()` exactly for
the `text` and `css` strategies. (The `SELECTOR_TEMPLATES.get` fallback
for an unknown strategy is unreachable here: every `SelectorStrategy`
value is a key of the table.) -/
def generateSelector (selector : String) (strategy : Option SelectorStrategy) :
    String :=
  let s := normalizeSelector selector
  let strat := match strategy with
    | some st => st
    | none => inferSelectorStrategy s
  let base := selectorTemplate strat s
  if strat = SelectorStrategy.text ∨ strat = SelectorStrategy.css then
    base ++ ".first()"
  else base

/-- A test step as consumed by `TestCompiler._compile_step`: the `action`
tag (a string, the value of the `ActionType` str-enum) and the optional
fields the compiler reads (`selector`, `selector_strategy`, `value`,
`url`, `assertion`, `description`). The compiler guards every read with
Python truthiness, so absent and empty fields behave alike. `TestStep`
declares no `timeout` attribute, so the `hasattr(step, 'timeout')` guard
in `_compile_step` is always false and `timeout_option` is always empty. -/
structure TestStep where
  action : String
  selector : Option String := none
  selector_strategy : Option SelectorStrategy := none
  value : Option String := none
  url : Option String := none
  assertion : Option String := none
  description : Option String := none
deriving DecidableEq, Repr

/-- The keys of `TEST_STEP_TEMPLATES` (the values of the `ActionType`
str-enum used by the compiler); `TEST_STEP_TEMPLATES.get(step.action)`
is `None` exactly when the action is not in this list. -/
def knownActions : List String :=
  ["navigate", "goto", "click", "fill", "select", "submit", "hover",
   "check", "uncheck", "expect", "go_back", "reload", "wait"]

/-- Membership in the template table. -/
def knownAction (a : String) : Bool := knownActions.contains a

/-- The `no_value_assertions` list of `_compile_step`. -/
def noValueAssertions : List String :=
  ["toBeVisible", "toBeHidden", "toBeEnabled", "toBeDisabled",
   "toBeChecked", "toBeEditable", "toBeEmpty", "toBeFocused",
   "toBeAttached", "toBeInViewport"]

/-- The title-sentinel guard of the expect branch:
`step.selector and step.selector.lower() == 'title'`. -/
def titleCond (step : TestStep) : Prop :=
  truthy step.selector = true ∧ asciiLower (optStr step.selector) = "title"

instance (step : TestStep) : Decidable (titleCond step) := by
  unfold titleCond; infer_instance

/-- The selector-resolution lines duplicated in the expect branch and the
final else branch of `_compile_step`: the resolved locator for a truthy
selector (quote-escaped first), otherwise the bare `page`. -/
def stepSelCode (step : TestStep) : String :=
  if truthy step.selector = true then
    generateSelector (escapeQuotes (optStr step.selector)) step.selector_strategy
  else "page"

/-- The assertion kind actually emitted:
`assertion = step.assertion or "toBeVisible"`. -/
def assertionOf (step : TestStep) : String := truthyOr step.assertion "toBeVisible"

/-- The `ActionType.EXPECT` branch of `_compile_step`. -/
def expectCode (step : TestStep) : String :=
  if titleCond step then
    if truthy step.value = true then
      "    await expect(page).toHaveTitle(/" ++ escapeQuotes (optStr step.value)
        ++ "/);"
    else "    // SKIPPED: Title assertion requires a value"
  else
    if assertionOf step ∈ noValueAssertions then
      "    await expect(" ++ stepSelCode step ++ ")." ++ assertionOf step ++ "();"
    else if truthy step.value = true then
      "    await expect(" ++ stepSelCode step ++ ")." ++ assertionOf step
        ++ "(\x27" ++ escapeQuotes (optStr step.value) ++ "\x27);"
    else
      "    // SKIPPED: " ++ assertionOf step
        ++ " requires a value but none was provided"

/-- The raw interpolated value of the final else branch:
`value=step.value or ""`, embedded without escaping. -/
def rawValue (step : TestStep) : String := truthyOr step.value ""

/-- The final `else` branch of `_compile_step` (`TEST_STEP_TEMPLATES`
formatting for the selector-style actions, with the quote-escaped
selector resolved through `_generate_selector` and the raw
`step.value or ""` interpolated unescaped). -/
def regularCode (step : TestStep) : String :=
  if step.action = "navigate" then
    "    await page.goto(\x27" ++ rawValue step ++ "\x27);"
  else if step.action = "click" then
    "    await " ++ stepSelCode step ++ ".click();"
  else if step.action = "fill" then
    "    await " ++ stepSelCode step ++ ".fill(\x27" ++ rawValue step ++ "\x27);"
  else if step.action = "select" then
    "    await " ++ stepSelCode step ++ ".selectOption(\x27" ++ rawValue step
      ++ "\x27);"
  else if step.action = "submit" then
    "    await " ++ stepSelCode step ++ ".click(); // Submit form"
  else if step.action = "hover" then
    "    await " ++ stepSelCode step ++ ".hover();"
  else if step.action = "check" then
    "    await " ++ stepSelCode step ++ ".check();"
  else "    await " ++ stepSelCode step ++ ".uncheck();"

/-- The statement part of `TestCompiler._compile_step` (everything after
the template lookup, before the step comment is prefixed). -/
def stepActionCode (step : TestStep) : String :=
  if knownAction step.action = false then
    "    // Unsupported action: " ++ step.action
  else if step.action = "goto" then
    "    await page.goto(\x27" ++ truthyOr step.url (truthyOr step.value "")
      ++ "\x27);"
  else if step.action = "wait" then
    "    await page.waitForTimeout(" ++ truthyOr step.value "1000"
      ++ "); // Wait " ++ truthyOr step.value "1000" ++ "ms for dynamic content"
  else if step.action = "go_back" then "    await page.goBack();"
  else if step.action = "reload" then "    await page.reload();"
  else if step.action = "expect" then expectCode step
  else regularCode step

/-- `TestCompiler._compile_step`: the traceability comment line followed by
the action statement. -/
def compileStep (step : TestStep) (stepNumber : Nat) : String :=
  "    // Step " ++ toString stepNumber ++ ": "
    ++ truthyOr step.description step.action ++ "\n" ++ stepActionCode step

/-- A test case as consumed by `TestCompiler._compile_test_case`. -/
structure TestCase where
  test_id : String := ""
  name : String
  description : String := ""
  steps : List TestStep
  assertions : List String := []
deriving DecidableEq, Repr

/-- `TEST_CASE_TEMPLATE.format(...)` of `templates.py`. -/
def testCaseTemplate (name description steps assertions : String) : String :=
  "  test(\x27" ++ name ++ "\x27, async (\x7b page \x7d) => \x7b\n    // "
    ++ description ++ "\n\n" ++ steps ++ "\n\n" ++ assertions ++ "\n  \x7d);"

/-- The assertions block of `_compile_test_case`: one comment per
human-readable assertion, or the fixed placeholder when there are none. -/
def assertionsBlock (assertions : List String) : String :=
  match assertions.map (fun a => "    // Assert: " ++ a) with
  | [] => "    // No explicit assertions"
  | l => joinSep "\n" l

/-- `TestCompiler._compile_test_case`. -/
def compileTestCase (tc : TestCase) : String :=
  testCaseTemplate tc.name tc.description
    (joinSep "\n" ((enumFrom 1 tc.steps).map fun p => compileStep p.2 p.1))
    (assertionsBlock tc.assertions)

/-- A test suite as consumed by `TestCompiler.compile`. -/
structure TestSuite where
  suite_id : String := ""
  name : String := ""
  base_url : String
  test_cases : List TestCase
deriving DecidableEq, Repr

/-- The part of `TEST_FILE_TEMPLATE` before the `{test_cases}` hole: the
module header line, the describe header and the single shared
`beforeEach` hook navigating to the base URL. -/
def fileHeader (baseUrl : String) : String := "import \x7b test, expect \x7d from \x27@playwright/test\x27;\n\n"
    ++ "test.describe(\x27Generated E2E Tests\x27, () => \x7b\n"
    ++ "  test.beforeEach(async (\x7b page \x7d) => \x7b\n"
    ++ "    await page.goto(\x27" ++ baseUrl ++ "\x27);\n  \x7d);\n\n"

/-- The text assembled by `TestCompiler.compile` (the returned artifact
content; writing it to disk is the compiler's only side effect and is not
part of the text). -/
def compileSuiteText (suite : TestSuite) : String :=
  fileHeader suite.base_url
    ++ joinSep "\n\n" (suite.test_cases.map compileTestCase)
    ++ "\n\x7d);\n"

/-- The shape of the `expected_body` value of an API test dict
(`api_compiler.py` inspects it with `isinstance(..., dict)` and an
equality test against the string `'array'`): an object carries its key
list (Python dict keys are unique and iterated in insertion order), a
string carries its text, and any other JSON value only matters through
its truthiness. -/
inductive ApiEBody where
  | obj (keys : List String)
  | lit (s : String)
  | other (isTruthy : Bool)
deriving DecidableEq, Repr

/-- Python truthiness of the optional `expected_body` value: a missing
key, an empty dict, an empty string and a falsy other value are falsy. -/
def ebTruthy : Option ApiEBody → Bool
  | none => false
  | some (ApiEBody.obj keys) => ¬ keys.isEmpty
  | some (ApiEBody.lit s) => s ≠ ""
  | some (ApiEBody.other b) => b

/-- The keys of an API test dict read by the assertion-building section of
`APITestCompiler._compile_api_test` (lines 71-97). The other keys
(`method`, `endpoint`, `body`, `headers`, ...) feed only the request
template, not the assertions. -/
structure ApiTest where
  expected_status : Option Int := none
  expected_body : Option ApiEBody := none
  max_response_time_ms : Option Nat := none
deriving DecidableEq, Repr

/-- `API_ASSERTIONS['json_schema'].format(property=key)`. -/
def propertyCheck (k : String) : String :=
  "    const body = await response.json();\n    expect(body).toHaveProperty(\x27"
    ++ k ++ "\x27);"

/-- `API_ASSERTIONS['array_length']`. -/
def arrayLengthCheck : String :=
  "    const body = await response.json();\n    expect(Array.isArray(body)).toBeTruthy();\n    expect(body.length).toBeGreaterThan(0);"

/-- The status assertion chain of `_compile_api_test`: a fixed lookup for
200/201/400/401/404 and an equality assertion built from the numeric
value otherwise. -/
def statusAssertions (st : Int) : List String :=
  if st = 200 then
    ["    expect(response.ok()).toBeTruthy();\n    expect(response.status()).toBe(200);"]
  else if st = 201 then ["    expect(response.status()).toBe(201);"]
  else if st = 400 then ["    expect(response.status()).toBe(400);"]
  else if st = 401 then ["    expect(response.status()).toBe(401);"]
  else if st = 404 then ["    expect(response.status()).toBe(404);"]
  else ["    expect(response.status()).toBe(" ++ toString st ++ ");"]

/-- The response-body assertion section: one `toHaveProperty` check per key
of an object expectation, a single non-empty-array check for the `'array'`
sentinel, nothing for any other (or falsy) value. -/
def bodyAssertions (eb : Option ApiEBody) : List String :=
  if ebTruthy eb = true then
    match eb with
    | some (ApiEBody.obj keys) => keys.map propertyCheck
    | some (ApiEBody.lit s) => if s = "array" then [arrayLengthCheck] else []
    | _ => []
  else []

/-- Python truthiness of the optional `max_response_time_ms` value. -/
def natTruthy : Option Nat → Bool
  | none => false
  | some n => n ≠ 0

/-- The full `assertions` list built by `_compile_api_test`
(`expected_status` defaults to 200 via `test.get('expected_status', 200)`). -/
def apiAssertions (t : ApiTest) : List String :=
  statusAssertions (t.expected_status.getD 200)
    ++ bodyAssertions t.expected_body
    ++ (if natTruthy t.max_response_time_ms = true then
          ["    // Response time should be under "
            ++ toString (t.max_response_time_ms.getD 0) ++ "ms"]
        else [])

/-! ## General lemmas about the embedded string operations -/

theorem strData_append (s t : String) : (s ++ t).data = s.data ++ t.data := by
  cases s; cases t; rfl

theorem strExt {s t : String} (h : s.data = t.data) : s = t := by
  cases s; cases t; exact congrArg String.mk h

theorem append_pair_inj {a b : List Char} {x y u v : Char}
    (h : a ++ [x, y] = b ++ [u, v]) : x = u ∧ y = v := by
  have := (List.append_inj' h rfl).2
  simp only [List.cons.injEq] at this
  exact ⟨this.1, this.2.1⟩

/-- A locator expression ending in an escaped quote and a closing
parenthesis never ends in the first-match qualifier. -/
theorem notFirstSuffix (pre s : String) :
    ¬ (".first()".data <:+ (pre ++ s ++ "\x27)").data) := by
  intro h
  obtain ⟨t, ht⟩ := h
  rw [strData_append, strData_append] at ht
  have e1 : ".first()".data = ['.', 'f', 'i', 'r', 's', 't'] ++ ['(', ')'] := by
    decide
  have e2 : "\x27)".data = ['\'', ')'] := by decide
  rw [e1, e2, ← List.append_assoc] at ht
  exact absurd (append_pair_inj ht).1 (by decide)

theorem qeAux_escape (l : List Char) : ∀ prev, qeAux prev (escapeQuotesL l) = true := by
  induction l with
  | nil => intro prev; rfl
  | cons c cs ih =>
      intro prev
      by_cases hc : c = '\''
      · subst hc
        simp only [escapeQuotesL, if_pos rfl, qeAux]
        rw [if_neg (by simp), if_neg (by simp)]
        exact ih _
      · simp only [escapeQuotesL, if_neg hc, qeAux]
        rw [if_neg (by simp [hc])]
        exact ih _

theorem enumFrom_length (n : Nat) (l : List α) : (enumFrom n l).length = l.length := by
  induction l generalizing n with
  | nil => rfl
  | cons a as ih => simp [enumFrom, ih]

theorem enumFrom_get (n : Nat) (l : List α) (i : Nat) (h : i < l.length) :
    (enumFrom n l).get ⟨i, by rwa [enumFrom_length]⟩ = (n + i, l.get ⟨i, h⟩) := by
  induction l generalizing n i with
  | nil => exact absurd h (by simp)
  | cons a as ih =>
      cases i with
      | zero => simp [enumFrom]
      | succ j =>
          have hj : j < as.length := by simpa using h
          have := ih (n + 1) j hj
          simp only [enumFrom, List.get] at this ⊢
          rw [this]
          have hn : n + 1 + j = n + (j + 1) := by omega
          rw [hn]

/-- C3: for every selector resolved with strategy `text` or `css` the
generated locator expression carries the first-match qualifier `.first()`,
and for every selector resolved with strategy `test-id` or `xpath` it
never does. -/
theorem c3_first_match_qualifier (sel : String) :
    (".first()".data <:+ (generateSelector sel (some SelectorStrategy.text)).data)
  ∧ (".first()".data <:+ (generateSelector sel (some SelectorStrategy.css)).data)
  ∧ ¬ (".first()".data <:+ (generateSelector sel (some SelectorStrategy.testId)).data)
  ∧ ¬ (".first()".data <:+ (generateSelector sel (some SelectorStrategy.xpath)).data) := by
  refine ⟨?_, ?_, ?_, ?_⟩
  · unfold generateSelector
    rw [if_pos (Or.inl rfl), strData_append]
    exact List.suffix_append _ _
  · unfold generateSelector
    rw [if_pos (Or.inr rfl), strData_append]
    exact List.suffix_append _ _
  · unfold generateSelector
    rw [if_neg (by simp)]
    exact notFirstSuffix "page.getByTestId(\x27" (normalizeSelector sel)
  · unfold generateSelector
    rw [if_neg (by simp)]
    exact notFirstSuffix "page.locator(\x27" (normalizeSelector sel)

/-- C5: when the declared strategy is absent, `_infer_selector_strategy`
infers by pattern in this order: a `[data-testid` prefix gives `test-id`,
a `[aria-label` prefix gives `aria-label`, a `//` prefix gives `xpath`, a
non-empty string of letters and whitespace (which necessarily does not
start with `.` or `#`) gives `text`, and anything else gives `css`. -/
theorem c5_strategy_inference (s : String) :
    (strStartsWith s "[data-testid" = true →
      inferSelectorStrategy s = SelectorStrategy.testId)
  ∧ (strStartsWith s "[data-testid" = false →
      strStartsWith s "[aria-label" = true →
      inferSelectorStrategy s = SelectorStrategy.ariaLabel)
  ∧ (strStartsWith s "[data-testid" = false →
      strStartsWith s "[aria-label" = false →
      strStartsWith s "//" = true →
      inferSelectorStrategy s = SelectorStrategy.xpath)
  ∧ (strStartsWith s "[data-testid" = false →
      strStartsWith s "[aria-label" = false →
      strStartsWith s "//" = false →
      matchesAlphaSpace s = true →
      strStartsWith s "." = false →
      strStartsWith s "#" = false →
      inferSelectorStrategy s = SelectorStrategy.text)
  ∧ (strStartsWith s "[data-testid" = false →
      strStartsWith s "[aria-label" = false →
      strStartsWith s "//" = false →
      ¬ (matchesAlphaSpace s ∧ ¬ strStartsWith s "." ∧ ¬ strStartsWith s "#") →
      inferSelectorStrategy s = SelectorStrategy.css) := by
  refine ⟨?_, ?_, ?_, ?_, ?_⟩
  · intro h1
    unfold inferSelectorStrategy
    rw [if_pos h1]
  · intro h1 h2
    unfold inferSelectorStrategy
    rw [if_neg (by simp [h1]), if_pos h2]
  · intro h1 h2 h3
    unfold inferSelectorStrategy
    rw [if_neg (by simp [h1]), if_neg (by simp [h2]), if_pos h3]
  · intro h1 h2 h3 h4 h5 h6
    unfold inferSelectorStrategy
    rw [if_neg (by simp [h1]), if_neg (by simp [h2]), if_neg (by simp [h3]),
      if_pos ⟨h4, by simp [h5], by simp [h6]⟩]
  · intro h1 h2 h3 h4
    unfold inferSelectorStrategy
    rw [if_neg (by simp [h1]), if_neg (by simp [h2]), if_neg (by simp [h3]),
      if_neg h4]

/-- Witness for C5 at the five concrete selector shapes. -/
theorem c5_strategy_inference_witness :
    inferSelectorStrategy "[data-testid=submit]" = SelectorStrategy.testId
  ∧ inferSelectorStrategy "[aria-label=Close]" = SelectorStrategy.ariaLabel
  ∧ inferSelectorStrategy "//div[1]" = SelectorStrategy.xpath
  ∧ inferSelectorStrategy "Submit order" = SelectorStrategy.text
  ∧ inferSelectorStrategy ".btn" = SelectorStrategy.css :=
  ⟨(c5_strategy_inference _).1 (by decide),
   (c5_strategy_inference _).2.1 (by decide) (by decide),
   (c5_strategy_inference _).2.2.1 (by decide) (by decide) (by decide),
   (c5_strategy_inference _).2.2.2.1 (by decide) (by decide) (by decide)
     (by decide) (by decide) (by decide),
   (c5_strategy_inference _).2.2.2.2 (by decide) (by decide) (by decide)
     (by decide)⟩

theorem enumFrom_getQ (n : Nat) (l : List α) (i : Nat) :
    (enumFrom n l).get? i = (l.get? i).map (fun a => (n + i, a)) := by
  induction l generalizing n i with
  | nil => simp [enumFrom]
  | cons a as ih =>
      cases i with
      | zero => simp [enumFrom]
      | succ j =>
          have hn : n + 1 + j = n + (j + 1) := by omega
          simp only [enumFrom, List.get?]
          rw [ih (n + 1) j, hn]

/-- Dispatch lemma: a step whose action is `expect` reaches the expect
branch of `_compile_step`. -/
theorem stepActionCode_expect (step : TestStep) (ha : step.action = "expect") :
    stepActionCode step = expectCode step := by
  unfold stepActionCode
  rw [ha]
  rw [if_neg (by decide), if_neg (by decide), if_neg (by decide),
    if_neg (by decide), if_neg (by decide), if_pos rfl]

/-- Dispatch lemma: a `click` step reaches the final else branch of
`_compile_step` and emits a click call on the resolved selector. -/
theorem stepActionCode_click (step : TestStep) (ha : step.action = "click") :
    stepActionCode step = "    await " ++ stepSelCode step ++ ".click();" := by
  unfold stepActionCode
  rw [ha]
  rw [if_neg (by decide), if_neg (by decide), if_neg (by decide),
    if_neg (by decide), if_neg (by decide), if_neg (by decide)]
  unfold regularCode
  rw [ha, if_neg (by decide), if_pos rfl]

/-- C1 counterexample: the step `{action: fill}` is malformed (its `fill`
action requires `selector` and `value`, both absent), yet `_compile_step`
emits a statement built from the `page` and empty-string fallbacks — not
a diagnostic comment in place of the broken statement. -/
theorem c1_counterexample :
    stepActionCode { action := "fill" }
      = "    await page.fill(\x27\x27);"
  ∧ isCommentFragment (stepActionCode { action := "fill" }) = false := by
  exact ⟨by decide, by decide⟩

/-- C1 (amended): compiling a step is total — the result is always the
traceability comment followed by a statement — and the diagnostic-comment
fallback covers an unrecognized action, a title assertion without a
value, and a value-requiring assertion without a value; a step missing a
selector/url/value for its action is instead compiled with `page` or
empty-string fallbacks. -/
theorem c1_totality (step : TestStep) (n : Nat) :
    compileStep step n
      = "    // Step " ++ toString n ++ ": " ++ truthyOr step.description step.action
          ++ "\n" ++ stepActionCode step
  ∧ (knownAction step.action = false →
      stepActionCode step = "    // Unsupported action: " ++ step.action)
  ∧ (step.action = "expect" → titleCond step → truthy step.value = false →
      stepActionCode step = "    // SKIPPED: Title assertion requires a value")
  ∧ (step.action = "expect" → ¬ titleCond step →
      assertionOf step ∉ noValueAssertions → truthy step.value = false →
      stepActionCode step
        = "    // SKIPPED: " ++ assertionOf step
            ++ " requires a value but none was provided") := by
  refine ⟨rfl, ?_, ?_, ?_⟩
  · intro h
    unfold stepActionCode
    rw [if_pos h]
  · intro ha ht hv
    rw [stepActionCode_expect step ha]
    unfold expectCode
    rw [if_pos ht, if_neg (by simp [hv])]
  · intro ha hnt hna hv
    rw [stepActionCode_expect step ha]
    unfold expectCode
    rw [if_neg hnt, if_neg hna, if_neg (by simp [hv])]

/-- Witness for C1 at an unrecognized action and at a value-requiring
assertion with no value. -/
theorem c1_totality_witness :
    stepActionCode { action := "drag_and_drop" }
      = "    // Unsupported action: drag_and_drop"
  ∧ stepActionCode { action := "expect", assertion := some "toHaveText" }
      = "    // SKIPPED: toHaveText requires a value but none was provided" := by
  constructor
  · have h := (c1_totality { action := "drag_and_drop" } 1).2.1 (by decide)
    rw [h]; decide
  · have h := (c1_totality { action := "expect", assertion := some "toHaveText" } 1).2.2.2
      rfl (by decide) (by decide) (by decide)
    rw [h]; decide

/-- C2 counterexample: a `fill` step with the value `a'b` embeds the raw,
unescaped value into the generated call — the quote is not escaped before
embedding, so the claimed all-interpolations-escaped property fails. -/
theorem c2_counterexample :
    stepActionCode { action := "fill", selector := some "#f", value := some "a\x27b" }
        = "    await page.locator(\x27#f\x27).first().fill(\x27a\x27b\x27);"
  ∧ stepActionCode { action := "fill", selector := some "#f", value := some "a\x27b" }
        ≠ "    await page.locator(\x27#f\x27).first().fill(\x27"
            ++ escapeQuotes "a\x27b" ++ "\x27);"
  ∧ quotesEscaped "a\x27b" = false := by
  exact ⟨by decide, by decide, by decide⟩

/-- C2 (amended): selector text is quote-escaped before selector
resolution in every selector-bearing action, and the value text of a
value-carrying expect assertion is quote-escaped before embedding — and
the escaping function leaves no unescaped quote; but the values of the
non-expect actions (fill, select, navigate) are embedded raw. -/
theorem c2_escaping (s : String) (step : TestStep) :
    quotesEscaped (escapeQuotes s) = true
  ∧ (step.action = "click" → truthy step.selector = true →
      stepActionCode step
        = "    await "
            ++ generateSelector (escapeQuotes (optStr step.selector))
                step.selector_strategy
            ++ ".click();")
  ∧ (step.action = "expect" → ¬ titleCond step →
      assertionOf step ∉ noValueAssertions → truthy step.value = true →
      stepActionCode step
        = "    await expect(" ++ stepSelCode step ++ ")." ++ assertionOf step
            ++ "(\x27" ++ escapeQuotes (optStr step.value) ++ "\x27);") := by
  refine ⟨qeAux_escape s.data none, ?_, ?_⟩
  · intro ha hs
    rw [stepActionCode_click step ha]
    unfold stepSelCode
    rw [if_pos hs]
  · intro ha hnt hna hv
    rw [stepActionCode_expect step ha]
    unfold expectCode
    rw [if_neg hnt, if_neg hna, if_pos hv]

/-- Python `s.endswith(p)` on code points. -/
def strEndsWith (s p : String) : Bool := p.data.isSuffixOf s.data

/-- C4 counterexample: a step whose assertion kind `toBeVisible` is in the
value-free set but whose selector is the title sentinel is routed to the
title branch first, and the emitted assertion carries the comparison
pattern `/Welcome/` — not the argument-free form. -/
theorem c4_counterexample :
    ({ action := "expect", selector := some "title", value := some "Welcome",
        assertion := some "toBeVisible" } : TestStep).assertion
        = some "toBeVisible"
  ∧ "toBeVisible" ∈ noValueAssertions
  ∧ stepActionCode
        { action := "expect", selector := some "title", value := some "Welcome",
          assertion := some "toBeVisible" }
      = "    await expect(page).toHaveTitle(/Welcome/);"
  ∧ strEndsWith
        (stepActionCode
          { action := "expect", selector := some "title", value := some "Welcome",
            assertion := some "toBeVisible" }) "();"
      = false := by
  exact ⟨rfl, by decide, by decide, by decide⟩

/-- C4 (amended): for every expect step whose selector is not the title
sentinel and whose assertion kind is in the fixed value-free set, the
emitted assertion carries no comparison argument, whether or not a value
was supplied. -/
theorem c4_value_free (step : TestStep) (a : String) :
    step.action = "expect" → ¬ titleCond step → step.assertion = some a →
    a ∈ noValueAssertions →
    stepActionCode step
      = "    await expect(" ++ stepSelCode step ++ ")." ++ a ++ "();" := by
  intro ha hnt hsa hmem
  have hne : a ≠ "" := by fin_cases hmem <;> decide
  have haof : assertionOf step = a := by
    simp [assertionOf, truthyOr, hsa, hne]
  rw [stepActionCode_expect step ha]
  unfold expectCode
  rw [if_neg hnt, haof, if_pos hmem]

/-- Witness for C4 at the `.banner` visibility scenario with a supplied
(and ignored) value. -/
theorem c4_value_free_witness :
    stepActionCode
        { action := "expect", selector := some ".banner",
          assertion := some "toBeVisible", value := some "ignored" }
      = "    await expect(page.locator(\x27.banner\x27).first()).toBeVisible();" := by
  have h := c4_value_free
    { action := "expect", selector := some ".banner",
      assertion := some "toBeVisible", value := some "ignored" }
    "toBeVisible" rfl (by decide) rfl (by decide)
  rw [h]; decide

/-- C6: an expect step whose selector equals the title sentinel
case-insensitively emits a document-title assertion with a regex-style
match against the escaped value, and a diagnostic no-op comment when the
value is absent. -/
theorem c6_title_sentinel (step : TestStep) (s : String) :
    step.action = "expect" → step.selector = some s → s ≠ "" →
    asciiLower s = "title" →
    (∀ v, step.value = some v → v ≠ "" →
      stepActionCode step
        = "    await expect(page).toHaveTitle(/" ++ escapeQuotes v ++ "/);")
  ∧ (truthy step.value = false →
      stepActionCode step = "    // SKIPPED: Title assertion requires a value") := by
  intro ha hsel hne hlow
  have ht : titleCond step := by
    constructor
    · rw [hsel]; simp [truthy, hne]
    · rw [hsel]; exact hlow
  constructor
  · intro v hv hvne
    rw [stepActionCode_expect step ha]
    unfold expectCode
    rw [if_pos ht, if_pos (by rw [hv]; simp [truthy, hvne]), hv]
    rfl
  · intro hv
    rw [stepActionCode_expect step ha]
    unfold expectCode
    rw [if_pos ht, if_neg (by simp [hv])]

/-- Witness for C6 at the `{selector: Title, value: Welcome}` scenario and
the value-less variant. -/
theorem c6_title_sentinel_witness :
    stepActionCode { action := "expect", selector := some "Title", value := some "Welcome" }
      = "    await expect(page).toHaveTitle(/Welcome/);"
  ∧ stepActionCode { action := "expect", selector := some "title" }
      = "    // SKIPPED: Title assertion requires a value" := by
  constructor
  · have h := (c6_title_sentinel
        { action := "expect", selector := some "Title", value := some "Welcome" }
        "Title" rfl rfl (by decide) (by decide)).1 "Welcome" rfl (by decide)
    rw [h]; decide
  · exact (c6_title_sentinel
      { action := "expect", selector := some "title" }
      "title" rfl rfl (by decide) (by decide)).2 (by decide)

/-- C10 counterexample: a selector-less expect step with a
value-requiring assertion and no value does emit a diagnostic comment, so
the claim that a selector-less expect never yields a diagnostic comment
fails. -/
theorem c10_counterexample :
    stepActionCode { action := "expect", assertion := some "toHaveText" }
      = "    // SKIPPED: toHaveText requires a value but none was provided"
  ∧ isCommentFragment
        (stepActionCode { action := "expect", assertion := some "toHaveText" })
      = true := by
  exact ⟨by decide, by decide⟩

/-- C10 (amended): for every expect step whose selector is absent or
empty, the bare `page` object is substituted as the assertion target and
no diagnostic comment is emitted, provided the step does not also lack a
required value: a value-free assertion kind, or a value-requiring kind
with a value present, both compile to an assertion on `page`. -/
theorem c10_selectorless_expect (step : TestStep) :
    step.action = "expect" → truthy step.selector = false →
    (assertionOf step ∈ noValueAssertions →
      stepActionCode step = "    await expect(page)." ++ assertionOf step ++ "();")
  ∧ (∀ v, assertionOf step ∉ noValueAssertions → step.value = some v → v ≠ "" →
      stepActionCode step
        = "    await expect(page)." ++ assertionOf step ++ "(\x27"
            ++ escapeQuotes v ++ "\x27);") := by
  intro ha hs
  have hnt : ¬ titleCond step := by
    intro h
    obtain ⟨h1, _⟩ := h
    rw [hs] at h1
    exact absurd h1 (by decide)
  have hpage : stepSelCode step = "page" := by
    unfold stepSelCode
    rw [hs, if_neg (by decide)]
  constructor
  · intro hmem
    rw [stepActionCode_expect step ha]
    unfold expectCode
    rw [if_neg hnt, if_pos hmem, hpage]
    rfl
  · intro v hmem hv hvne
    rw [stepActionCode_expect step ha]
    unfold expectCode
    rw [if_neg hnt, if_neg hmem, if_pos (by rw [hv]; simp [truthy, hvne]), hpage, hv]
    rfl

/-- Witness for C10: a selector-less expect with the default visibility
assertion targets the bare page. -/
theorem c10_selectorless_expect_witness :
    stepActionCode { action := "expect" } = "    await expect(page).toBeVisible();" := by
  have h := (c10_selectorless_expect { action := "expect" } rfl (by decide)).1 (by decide)
  rw [h]; decide

/-- Witness for C2 at a concrete quoted value and a concrete expect step. -/
theorem c2_escaping_witness :
    quotesEscaped (escapeQuotes "a\x27b") = true
  ∧ stepActionCode
        { action := "expect", selector := some "#f",
          assertion := some "toHaveText", value := some "a\x27b" }
      = "    await expect(page.locator(\x27#f\x27).first()).toHaveText(\x27a\\\x27b\x27);" := by
  constructor
  · exact (c2_escaping "a\x27b" { action := "expect" }).1
  · have h := (c2_escaping ""
        { action := "expect", selector := some "#f",
          assertion := some "toHaveText", value := some "a\x27b" }).2.2
      rfl (by decide) (by decide) (by decide)
    rw [h]; decide

/-- C8: suite assembly preserves order and shape — the compiled file is
the header (with the single shared setup hook on the suite's base URL)
followed by the per-case blocks joined in input order and the closing
footer; there are exactly as many blocks as test cases; each block wraps
the case's steps joined in order; and the i-th step fragment of a case is
the compilation of the i-th step, numbered i+1. -/
theorem c8_assembly_shape (suite : TestSuite) :
    compileSuiteText suite
      = fileHeader suite.base_url
          ++ joinSep "\n\n" (suite.test_cases.map compileTestCase) ++ "\n\x7d);\n"
  ∧ (suite.test_cases.map compileTestCase).length = suite.test_cases.length
  ∧ (∀ tc : TestCase, compileTestCase tc
      = "  test(\x27" ++ tc.name ++ "\x27, async (\x7b page \x7d) => \x7b\n    // "
          ++ tc.description ++ "\n\n"
          ++ joinSep "\n" ((enumFrom 1 tc.steps).map fun p => compileStep p.2 p.1)
          ++ "\n\n" ++ assertionsBlock tc.assertions ++ "\n  \x7d);")
  ∧ (∀ (tc : TestCase) (i : Nat),
      ((enumFrom 1 tc.steps).map fun p => compileStep p.2 p.1).get? i
        = (tc.steps.get? i).map fun st => compileStep st (i + 1)) := by
  refine ⟨rfl, by simp, fun tc => rfl, fun tc i => ?_⟩
  rw [List.get?_map, enumFrom_getQ 1 tc.steps i]
  cases tc.steps.get? i with
  | none => rfl
  | some st =>
      simp only [Option.map_some']
      rw [Nat.add_comm 1 i]

/-- C9: compilation is deterministic — the generated text is a pure
function of the IR's base URL and test cases, so compiling equal IR
values yields byte-identical output (the suite id and name only key the
artifact path and the log line). -/
theorem c9_determinism (s1 s2 : TestSuite)
    (hb : s1.base_url = s2.base_url) (hc : s1.test_cases = s2.test_cases) :
    compileSuiteText s1 = compileSuiteText s2 := by
  unfold compileSuiteText fileHeader
  rw [hb, hc]

/-- Witness for C9: two suites differing only in suite id and name
compile to the same text. -/
theorem c9_determinism_witness :
    compileSuiteText
        { suite_id := "suite_a", name := "first", base_url := "http://x",
          test_cases := [] }
      = compileSuiteText
        { suite_id := "suite_b", name := "second", base_url := "http://x",
          test_cases := [] } :=
  c9_determinism _ _ rfl rfl

theorem propertyCheck_take (k : String) :
    (propertyCheck k).data.take 10 = "    const ".data := by
  unfold propertyCheck
  rw [strData_append, strData_append, List.append_assoc]
  rw [List.take_append_of_le_length (by decide)]
  decide

theorem statusAssertion_take (st : Int) :
    ∀ y ∈ statusAssertions st, y.data.take 10 = "    expect".data := by
  intro y hy
  unfold statusAssertions at hy
  split_ifs at hy <;> simp only [List.mem_singleton] at hy <;> subst hy
  case _ => decide
  case _ => decide
  case _ => decide
  case _ => decide
  case _ => decide
  case _ =>
    rw [strData_append, strData_append, List.append_assoc]
    rw [List.take_append_of_le_length (by decide)]
    decide

theorem propertyCheck_not_in_status (st : Int) (k : String) :
    propertyCheck k ∉ statusAssertions st := by
  intro hmem
  have h1 := statusAssertion_take st _ hmem
  rw [propertyCheck_take k] at h1
  exact absurd h1 (by decide)

theorem propertyCheck_injective : Function.Injective propertyCheck := by
  intro k1 k2 h
  have hd := congrArg String.data h
  unfold propertyCheck at hd
  rw [strData_append, strData_append, strData_append, strData_append,
    List.append_assoc, List.append_assoc] at hd
  exact strExt (List.append_cancel_right (List.append_cancel_left hd))

/-- C7: the API-level compiler emits exactly one `toHaveProperty` check
per expected key for an object-shaped `expected_body`, and a single
non-empty-array check for the `'array'`-shaped `expected_body`. -/
theorem c7_api_body_assertions (keys : List String) (st : Int) (t1 t2 : ApiTest) :
    t1.expected_status = some st → t1.expected_body = some (ApiEBody.obj keys) →
    t1.max_response_time_ms = none → keys ≠ [] → keys.Nodup →
    t2.expected_status = some st → t2.expected_body = some (ApiEBody.lit "array") →
    t2.max_response_time_ms = none →
    (apiAssertions t1 = statusAssertions st ++ keys.map propertyCheck
      ∧ ∀ k ∈ keys, (apiAssertions t1).count (propertyCheck k) = 1)
  ∧ apiAssertions t2 = statusAssertions st ++ [arrayLengthCheck] := by
  intro h1 h2 h3 hne hnd h4 h5 h6
  have hemp : keys.isEmpty = false := by
    cases keys with
    | nil => exact absurd rfl hne
    | cons a as => rfl
  have e1 : apiAssertions t1 = statusAssertions st ++ keys.map propertyCheck := by
    unfold apiAssertions
    rw [h1, h2, h3]
    simp [bodyAssertions, ebTruthy, natTruthy, hemp]
  refine ⟨⟨e1, ?_⟩, ?_⟩
  · intro k hk
    rw [e1, List.count_append]
    have hz : (statusAssertions st).count (propertyCheck k) = 0 :=
      List.count_eq_zero.mpr (propertyCheck_not_in_status st k)
    rw [hz, List.count_map_of_injective _ _ propertyCheck_injective,
      List.count_eq_one_of_mem hnd hk]
  · unfold apiAssertions
    rw [h4, h5, h6]
    simp [bodyAssertions, ebTruthy, natTruthy]

/-- Witness for C7 at a two-key object expectation and the array
sentinel. -/
theorem c7_api_body_assertions_witness :
    apiAssertions
        { expected_status := some 200,
          expected_body := some (ApiEBody.obj ["id", "name"]) }
      = statusAssertions 200 ++ [propertyCheck "id", propertyCheck "name"]
  ∧ (apiAssertions
        { expected_status := some 200,
          expected_body := some (ApiEBody.obj ["id", "name"]) }).count
        (propertyCheck "id") = 1
  ∧ apiAssertions
        { expected_status := some 200,
          expected_body := some (ApiEBody.lit "array") }
      = statusAssertions 200 ++ [arrayLengthCheck] := by
  have h := c7_api_body_assertions ["id", "name"] 200
    { expected_status := some 200,
      expected_body := some (ApiEBody.obj ["id", "name"]) }
    { expected_status := some 200,
      expected_body := some (ApiEBody.lit "array") }
    rfl rfl rfl (by decide) (by decide) rfl rfl rfl
  exact ⟨h.1.1, h.1.2 "id" (by decide), h.2⟩
